import Mathlib

/-!
Shallow embedding of the uptime-kuma operator reconciliation engine
(operator/internal/controller and operator/pkg/client), with theorems
settling the behavioural claims about it.

Conventions of the embedding:
- Go ints are modelled as `Int`; Kubernetes object stores are lists with
  lookup by (name, namespace); the namespace field is called `ns`.
- Fallible Go calls are modelled as `Except String` values; the responses of
  the external backend and of the Kubernetes API are injected as explicit
  parameters, and the backend calls a function issues are returned as an
  explicit `Call` trace.
- The condition list on a status is reduced to its single recognised entry
  (type "Ready"), modelled as `Option Condition`; `meta.SetStatusCondition`
  on that type is replacement.
- Timestamps are not modelled; `float64` statistics are modelled as `Rat`.
-/

namespace UptimeKumaOperator

/-- One entry of a status condition list (type "Ready"): k8s ConditionTrue is
`true`, ConditionFalse is `false`. -/
structure Condition where
  status : Bool
  reason : String
  message : String
deriving DecidableEq

/-- Result of one reconcile: the RequeueAfter duration in minutes
(0 = no requeue requested). -/
structure ReconResult where
  requeueAfterMinutes : Nat
deriving DecidableEq

/-- RequeueInterval = 5 * time.Minute (drift-detection interval). -/
def RequeueInterval : Nat := 5

/-! ## Service discovery (service_controller.go, ServiceReconciler) -/

def AnnotationEnabled : String := "monitoring.uptimekuma.io/enabled"
def AnnotationType : String := "monitoring.uptimekuma.io/type"
def AnnotationPath : String := "monitoring.uptimekuma.io/path"
def AnnotationPort : String := "monitoring.uptimekuma.io/port"
def AnnotationInterval : String := "monitoring.uptimekuma.io/interval"
def AnnotationGroup : String := "monitoring.uptimekuma.io/group"
def AnnotationConfig : String := "monitoring.uptimekuma.io/config"

def DefaultMonitorType : String := "http"
def DefaultPath : String := "/"
def DefaultPortName : String := "http"

/-- DefaultMonitorInterval is the default check interval in seconds. -/
def DefaultMonitorInterval : Int := 60

/-- A declared port of a Service (corev1.ServicePort: fields Name, Port). -/
structure ServicePort where
  name : String
  port : Int
deriving DecidableEq

/-- The slice of a corev1.Service the discovery controller reads. -/
structure Service where
  name : String
  ns : String
  annotations : List (String × String)
  ports : List ServicePort
deriving DecidableEq

/-- getAnnotation gets an annotation value with a default. -/
def getAnnotationValue (annotations : List (String × String)) (key defaultValue : String) : String :=
  match annotations.lookup key with
  | some v => v
  | none => defaultValue

/-- Value of a decimal digit character. -/
def digitVal (c : Char) : Option Nat :=
  if '0' ≤ c ∧ c ≤ '9' then some (c.toNat - ('0').toNat) else none

/-- Parse a non-empty all-digit character list as a natural number. -/
def parseNatDigits (cs : List Char) : Option Nat :=
  match cs with
  | [] => none
  | _ => cs.foldl (fun acc c =>
      match acc, digitVal c with
      | some n, some d => some (10 * n + d)
      | _, _ => none) (some 0)

/-- strconv syntax for a base-10 integer: an optional sign followed by one
or more decimal digits. -/
def parseGoInt (s : String) : Option Int :=
  match s.data with
  | [] => none
  | '+' :: rest => (parseNatDigits rest).map Int.ofNat
  | '-' :: rest => (parseNatDigits rest).map (fun n => -(Int.ofNat n))
  | cs => (parseNatDigits cs).map Int.ofNat

/-- strconv.ParseInt(s, 10, 32): base-10 integer within int32 bounds. -/
def parseInt32 (s : String) : Option Int :=
  match parseGoInt s with
  | some n => if -(2 ^ 31) ≤ n ∧ n < 2 ^ 31 then some n else none
  | none => none

/-- strconv.Atoi: base-10 integer within int64 bounds. -/
def atoi (s : String) : Option Int :=
  match parseGoInt s with
  | some n => if -(2 ^ 63) ≤ n ∧ n < 2 ^ 63 then some n else none
  | none => none

/-- resolvePort resolves the port from the service spec: a numeric annotation
is used directly; otherwise the first declared port with matching name;
otherwise the first declared port; otherwise an error. -/
def resolvePort (service : Service) (portSpec : String) : Except String Int :=
  match parseInt32 portSpec with
  | some portNum => .ok portNum
  | none =>
    match service.ports.find? (fun p => p.name == portSpec) with
    | some p => .ok p.port
    | none =>
      match service.ports with
      | p :: _ => .ok p.port
      | [] => .error "no ports found on service"

/-- A (tag-name, tag-value, tag-color) triple on a monitor spec. -/
structure MonitorTag where
  name : String
  value : String
  color : String
deriving DecidableEq

/-- HTTP-family specific options of a monitor spec. -/
structure HTTPOptions where
  method : String
  body : String
  headers : List (String × String)
  acceptedStatusCodes : List String
deriving DecidableEq

/-- UptimeKumaMonitorSpec (api/v1alpha1): desired state of a monitor. -/
structure UptimeKumaMonitorSpec where
  monitorType : String
  name : String
  url : String
  hostname : String
  port : Int
  interval : Int
  retryInterval : Int
  maxRetries : Int
  description : String
  group : String
  tags : List MonitorTag
  active : Bool
  uptimeKumaConfigRef : String
  http : Option HTTPOptions
deriving DecidableEq

/-- The zero value of a monitor spec (Go struct zero value). -/
def emptyMonitorSpec : UptimeKumaMonitorSpec :=
  { monitorType := "", name := "", url := "", hostname := "", port := 0, interval := 0,
    retryInterval := 0, maxRetries := 0, description := "", group := "", tags := [],
    active := false, uptimeKumaConfigRef := "", http := none }

/-- buildMonitorSpec builds a UptimeKumaMonitorSpec from Service annotations. -/
def buildMonitorSpec (service : Service) : Except String UptimeKumaMonitorSpec :=
  let annotations := service.annotations
  let monitorType := getAnnotationValue annotations AnnotationType DefaultMonitorType
  let path := getAnnotationValue annotations AnnotationPath DefaultPath
  match resolvePort service (getAnnotationValue annotations AnnotationPort DefaultPortName) with
  | .error e => .error ("failed to resolve port: " ++ e)
  | .ok port =>
    let url := "http://" ++ service.name ++ "." ++ service.ns ++ ".svc.cluster.local:"
      ++ toString port ++ path
    let intervalStr := getAnnotationValue annotations AnnotationInterval ""
    let interval : Int :=
      if intervalStr = "" then DefaultMonitorInterval
      else match atoi intervalStr with
        | some val => val
        | none => DefaultMonitorInterval
    let group := getAnnotationValue annotations AnnotationGroup ""
    let config := getAnnotationValue annotations AnnotationConfig ""
    .ok { emptyMonitorSpec with
      name := service.name ++ " (" ++ service.ns ++ "/" ++ service.name ++ ")"
      monitorType := monitorType
      url := url
      interval := interval
      active := true
      group := group
      uptimeKumaConfigRef := config
      tags := [ { name := "source", value := "service-discovery", color := "#4CAF50" },
                { name := "namespace", value := service.ns, color := "#2196F3" } ] }

/-! ## Resource data model (api/v1alpha1 types, slices the controllers read) -/

/-- Uptime statistics copied into the monitor status (float64 in Go,
modelled as Rat). -/
structure UptimeStats where
  uptime24h : Rat
  uptime30d : Rat
  avgPing : Rat
deriving DecidableEq

/-- UptimeKumaMonitorStatus: observed state of a monitor resource. -/
structure UptimeKumaMonitorStatus where
  monitorID : Int
  status : String
  uptimeStats : Option UptimeStats
  observedGeneration : Int
  ready : Option Condition
deriving DecidableEq

/-- A UptimeKumaMonitor resource with the object metadata the controller
reads (name, namespace, generation, finalizers, deletion timestamp as a
present/absent flag). -/
structure UptimeKumaMonitor where
  name : String
  ns : String
  generation : Int
  finalizers : List String
  deletionTimestamp : Bool
  spec : UptimeKumaMonitorSpec
  status : UptimeKumaMonitorStatus
deriving DecidableEq

/-- UptimeKumaGroupSpec: desired state of a group resource. -/
structure UptimeKumaGroupSpec where
  groupName : String
  description : String
  weight : Int
  parentGroup : String
  uptimeKumaConfigRef : String
deriving DecidableEq

/-- UptimeKumaGroupStatus: observed state of a group resource. -/
structure UptimeKumaGroupStatus where
  groupID : Int
  observedGeneration : Int
  ready : Option Condition
deriving DecidableEq

/-- A UptimeKumaGroup resource with the object metadata the controller
reads. -/
structure UptimeKumaGroup where
  name : String
  ns : String
  generation : Int
  finalizers : List String
  deletionTimestamp : Bool
  spec : UptimeKumaGroupSpec
  status : UptimeKumaGroupStatus
deriving DecidableEq

/-- r.Get on a group key: lookup by name and namespace in the store. -/
def getGroup (store : List UptimeKumaGroup) (name ns : String) : Option UptimeKumaGroup :=
  store.find? (fun g => g.name == name && g.ns == ns)

/-! ## Backend client model (pkg/client) -/

/-- A tag in Uptime Kuma (pkg/client Tag). -/
structure Tag where
  id : Int
  name : String
  color : String
deriving DecidableEq

/-- uptimeclient.Monitor: the external representation sent to the backend
(the fields buildMonitorConfig populates). -/
structure KumaMonitor where
  id : Int
  name : String
  typ : String
  url : String
  hostname : String
  port : Int
  interval : Int
  retryInterval : Int
  maxRetries : Int
  description : String
  active : Bool
  httpMethod : String
  httpBody : String
  httpHeaders : List (String × String)
  acceptedStatuses : List String
  parent : Option Int
deriving DecidableEq

/-- uptimeclient.Group: the external representation of a group. -/
structure KumaGroup where
  name : String
  description : String
  weight : Int
  parent : Option Int
deriving DecidableEq

/-- pkg/client MonitorStatus: status and statistics fetched from the
backend. -/
structure MonitorStatusResp where
  status : String
  uptime24h : Option Rat
  uptime30d : Option Rat
  avgPing24h : Option Rat
deriving DecidableEq

/-- One call issued to the backend REST client. -/
inductive Call where
  | createMonitor (m : KumaMonitor)
  | updateMonitor (id : Int) (m : KumaMonitor)
  | deleteMonitor (id : Int) (deleteChildren : Bool)
  | listTags
  | createTag (name color : String)
  | addTagToMonitor (monitorID tagID : Int) (value : String)
  | getMonitorStatus (id : Int)
  | pauseMonitor (id : Int)
  | resumeMonitor (id : Int)
  | createGroup (g : KumaGroup)
  | updateGroup (id : Int) (g : KumaGroup)
  | deleteGroup (id : Int) (deleteChildren : Bool)
deriving DecidableEq

/-- The responses the external backend (and the status subresource writer)
gives to the calls a reconcile may issue; injected as a parameter so that
reconcile functions are pure. -/
structure Backend where
  createMonitorResp : Except String Int
  updateMonitorResp : Except String Unit
  deleteMonitorResp : Except String Unit
  listTagsResp : Except String (List Tag)
  createTagResp : Except String Tag
  addTagResp : Except String Unit
  getMonitorStatusResp : Except String MonitorStatusResp
  pauseResp : Except String Unit
  resumeResp : Except String Unit
  createGroupResp : Except String Int
  updateGroupResp : Except String Unit
  deleteGroupResp : Except String Unit
  statusUpdateResp : Except String Unit

/-- FindOrCreateTag (pkg/client/tags.go): list all tags, return the first
whose name equals the requested name; create the tag with the requested
name and color only when none matches. Returns the result and the calls
issued. -/
def FindOrCreateTag (be : Backend) (name color : String) :
    Except String Tag × List Call :=
  match be.listTagsResp with
  | .error e => (.error e, [.listTags])
  | .ok tags =>
    match tags.find? (fun t => t.name == name) with
    | some tag => (.ok tag, [.listTags])
    | none => (be.createTagResp, [.listTags, .createTag name color])

/-! ## Monitor controller (uptimekumamonitor_controller.go) -/

def monitorFinalizerName : String := "monitoring.uptimekuma.io/monitor-finalizer"

def ReasonMonitorSynced : String := "MonitorSynced"
def ReasonMonitorSyncFailed : String := "MonitorSyncFailed"

/-- resolveGroup resolves the group name on a monitor spec to the parent
GroupID, erroring when the group is absent or still unsynced. -/
def resolveGroup (store : List UptimeKumaGroup) (monitor : UptimeKumaMonitor) :
    Except String Int :=
  match getGroup store monitor.spec.group monitor.ns with
  | none => .error ("group \x27" ++ monitor.spec.group ++ "\x27 not found")
  | some group =>
    if group.status.groupID = 0 then
      .error ("group \x27" ++ monitor.spec.group ++ "\x27 has not been synced yet (no GroupID)")
    else
      .ok group.status.groupID

/-- The zero value of the external monitor representation. -/
def emptyKumaMonitor : KumaMonitor :=
  { id := 0, name := "", typ := "", url := "", hostname := "", port := 0, interval := 0,
    retryInterval := 0, maxRetries := 0, description := "", active := false,
    httpMethod := "", httpBody := "", httpHeaders := [], acceptedStatuses := [],
    parent := none }

/-- buildMonitorConfig builds the external monitor representation from the
CR spec: name falls back to the resource name, interval falls back to the
default when zero, HTTP options are mapped when present, and a group
reference is resolved to a parent id. -/
def buildMonitorConfig (store : List UptimeKumaGroup) (monitor : UptimeKumaMonitor) :
    Except String KumaMonitor :=
  let monitorName := if monitor.spec.name = "" then monitor.name else monitor.spec.name
  let interval := if monitor.spec.interval = 0 then DefaultMonitorInterval else monitor.spec.interval
  let base : KumaMonitor :=
    { emptyKumaMonitor with
      name := monitorName
      typ := monitor.spec.monitorType
      url := monitor.spec.url
      hostname := monitor.spec.hostname
      port := monitor.spec.port
      interval := interval
      retryInterval := monitor.spec.retryInterval
      maxRetries := monitor.spec.maxRetries
      description := monitor.spec.description
      active := monitor.spec.active }
  let kumaMonitor :=
    match monitor.spec.http with
    | some http =>
      { base with
        httpMethod := http.method
        httpBody := http.body
        httpHeaders := http.headers
        acceptedStatuses := http.acceptedStatusCodes }
    | none => base
  if monitor.spec.group = "" then
    .ok kumaMonitor
  else
    match resolveGroup store monitor with
    | .error e => .error ("failed to resolve group: " ++ e)
    | .ok parentID => .ok { kumaMonitor with parent := some parentID }

/-- The calls one declared tag produces: find-or-create it, then attach it
to the monitor with the declared value; a failure of the find-or-create
skips the attachment. -/
def syncTagOne (be : Backend) (monitorID : Int) (tag : MonitorTag) : List Call :=
  match FindOrCreateTag be tag.name tag.color with
  | (.error _, calls) => calls
  | (.ok kumaTag, calls) => calls ++ [.addTagToMonitor monitorID kumaTag.id tag.value]

/-- syncTags synchronizes tags for the monitor; it never fails (per-tag
failures are logged and skipped). Returns the calls issued. -/
def syncTags (be : Backend) (monitor : UptimeKumaMonitor) : List Call :=
  if monitor.spec.tags.isEmpty then []
  else monitor.spec.tags.flatMap (syncTagOne be monitor.status.monitorID)

/-- How updateMonitorStatus merges fetched statistics into the status: when
any statistic is present, the stats record is created if needed and the
present fields overwrite it. -/
def applyUptimeStats (cur : Option UptimeStats) (resp : MonitorStatusResp) :
    Option UptimeStats :=
  if resp.uptime24h.isSome || resp.uptime30d.isSome || resp.avgPing24h.isSome then
    let base := cur.getD { uptime24h := 0, uptime30d := 0, avgPing := 0 }
    some { uptime24h := resp.uptime24h.getD base.uptime24h
           uptime30d := resp.uptime30d.getD base.uptime30d
           avgPing := resp.avgPing24h.getD base.avgPing }
  else cur

/-- Result of updateMonitorStatus: the updated resource, the calls issued,
and the result of the status write. -/
structure StatusUpdateOut where
  monitor : UptimeKumaMonitor
  calls : List Call
  res : Except String Unit

/-- updateMonitorStatus fetches the external status (a fetch failure sets
the observed status to "unknown" without failing), copies statistics, sets
observedGeneration and the Ready=True condition, and writes the status
subresource. -/
def updateMonitorStatus (be : Backend) (monitor : UptimeKumaMonitor) :
    StatusUpdateOut :=
  let st :=
    match be.getMonitorStatusResp with
    | .error _ => { monitor.status with status := "unknown" }
    | .ok resp =>
      { monitor.status with
        status := resp.status
        uptimeStats := applyUptimeStats monitor.status.uptimeStats resp }
  let st := { st with observedGeneration := monitor.generation }
  let cond : Condition :=
    { status := true
      reason := ReasonMonitorSynced
      message := "Monitor synced successfully (MonitorID: " ++ toString st.monitorID
        ++ ", Status: " ++ st.status ++ ")" }
  let st := { st with ready := some cond }
  { monitor := { monitor with status := st }
    calls := [.getMonitorStatus monitor.status.monitorID]
    res := be.statusUpdateResp }

/-- Result of syncMonitor: the wrapped error (if any), the resource as
mutated in memory, and the backend calls issued. -/
structure MonitorSyncOut where
  res : Except String Unit
  monitor : UptimeKumaMonitor
  calls : List Call

/-- syncMonitor creates the monitor in the backend when the external id is
the zero sentinel (storing the returned id), updates it otherwise, then
best-effort syncs tags and updates the status. -/
def syncMonitor (store : List UptimeKumaGroup) (be : Backend)
    (monitor : UptimeKumaMonitor) : MonitorSyncOut :=
  match buildMonitorConfig store monitor with
  | .error e => { res := .error ("failed to build monitor config: " ++ e),
                  monitor := monitor, calls := [] }
  | .ok kumaMonitor =>
    if monitor.status.monitorID = 0 then
      match be.createMonitorResp with
      | .error e => { res := .error ("failed to create monitor: " ++ e),
                      monitor := monitor, calls := [.createMonitor kumaMonitor] }
      | .ok monitorID =>
        let monitor := { monitor with status := { monitor.status with monitorID := monitorID } }
        let tagCalls := syncTags be monitor
        let su := updateMonitorStatus be monitor
        { res := su.res, monitor := su.monitor,
          calls := [.createMonitor kumaMonitor] ++ tagCalls ++ su.calls }
    else
      let km := { kumaMonitor with id := monitor.status.monitorID }
      match be.updateMonitorResp with
      | .error e => { res := .error ("failed to update monitor: " ++ e),
                      monitor := monitor,
                      calls := [.updateMonitor monitor.status.monitorID km] }
      | .ok _ =>
        let tagCalls := syncTags be monitor
        let su := updateMonitorStatus be monitor
        { res := su.res, monitor := su.monitor,
          calls := [.updateMonitor monitor.status.monitorID km] ++ tagCalls ++ su.calls }

/-- syncActiveState compares the fetched "paused" classification against
the desired active flag and issues at most one pause or resume call. -/
def syncActiveState (be : Backend) (monitor : UptimeKumaMonitor) :
    Except String Unit × List Call :=
  if monitor.status.monitorID = 0 then (.ok (), [])
  else
    match be.getMonitorStatusResp with
    | .error e => (.error ("failed to get monitor status: " ++ e),
                   [.getMonitorStatus monitor.status.monitorID])
    | .ok st =>
      let isActive := st.status ≠ "paused"
      if monitor.spec.active ∧ ¬isActive then
        (be.resumeResp, [.getMonitorStatus monitor.status.monitorID,
                         .resumeMonitor monitor.status.monitorID])
      else if ¬monitor.spec.active ∧ isActive then
        (be.pauseResp, [.getMonitorStatus monitor.status.monitorID,
                        .pauseMonitor monitor.status.monitorID])
      else
        (.ok (), [.getMonitorStatus monitor.status.monitorID])

/-- Result of a deletion handler: the resource after the handler ran, the
reconcile result, the backend calls issued, and whether r.Update was called
on the resource. -/
structure MonitorDeleteOut where
  monitor : UptimeKumaMonitor
  result : ReconResult
  calls : List Call
  updated : Bool

/-- handleDeletion (monitor): a resource without the finalizer is left
untouched; otherwise the external monitor is deleted when an id is recorded
(the delete call result and even client construction failure are ignored),
and the finalizer is removed unconditionally. `clientResp` is the outcome
of getUptimeKumaClient. -/
def monitorHandleDeletion (clientResp : Except String Unit) (be : Backend)
    (monitor : UptimeKumaMonitor) : MonitorDeleteOut :=
  if monitorFinalizerName ∈ monitor.finalizers then
    let calls :=
      if monitor.status.monitorID ≠ 0 then
        match clientResp with
        | .error _ => []
        | .ok _ =>
          match be.deleteMonitorResp with
          | .error _ => [Call.deleteMonitor monitor.status.monitorID false]
          | .ok _ => [Call.deleteMonitor monitor.status.monitorID false]
      else []
    { monitor := { monitor with
        finalizers := monitor.finalizers.filter (· ≠ monitorFinalizerName) }
      result := { requeueAfterMinutes := 0 }
      calls := calls
      updated := true }
  else
    { monitor := monitor, result := { requeueAfterMinutes := 0 }, calls := [],
      updated := false }

/-- updateStatusError (monitor): Ready=False with reason MonitorSyncFailed
and the error text as message. -/
def monitorUpdateStatusError (monitor : UptimeKumaMonitor) (errMsg : String) :
    UptimeKumaMonitor :=
  { monitor with status := { monitor.status with
      ready := some { status := false, reason := ReasonMonitorSyncFailed,
                      message := errMsg } } }

/-- Result of a full monitor reconcile. -/
structure MonitorReconOut where
  monitor : UptimeKumaMonitor
  result : ReconResult
  calls : List Call

/-- Reconcile (monitor): handle deletion, add the finalizer, build the
client (`clientResp` injects the outcome of getUptimeKumaClient), run the
primary sync, then best-effort sync the active state. Errors of the client
construction or primary sync set Ready=False and requeue after 1 minute;
success requeues after the drift interval. -/
def monitorReconcile (store : List UptimeKumaGroup) (clientResp : Except String Unit)
    (be : Backend) (monitor : UptimeKumaMonitor) : MonitorReconOut :=
  if monitor.deletionTimestamp then
    let out := monitorHandleDeletion clientResp be monitor
    { monitor := out.monitor, result := out.result, calls := out.calls }
  else
    let monitor :=
      if monitorFinalizerName ∈ monitor.finalizers then monitor
      else { monitor with finalizers := monitor.finalizers ++ [monitorFinalizerName] }
    match clientResp with
    | .error e =>
      { monitor := monitorUpdateStatusError monitor e,
        result := { requeueAfterMinutes := 1 }, calls := [] }
    | .ok _ =>
      let out := syncMonitor store be monitor
      match out.res with
      | .error e =>
        { monitor := monitorUpdateStatusError out.monitor e,
          result := { requeueAfterMinutes := 1 }, calls := out.calls }
      | .ok _ =>
        let (_, activeCalls) := syncActiveState be out.monitor
        { monitor := out.monitor,
          result := { requeueAfterMinutes := RequeueInterval },
          calls := out.calls ++ activeCalls }

/-! ## Group controller (service_controller.go, UptimeKumaGroupReconciler) -/

def groupFinalizerName : String := "monitoring.uptimekuma.io/group-finalizer"

def ReasonGroupSynced : String := "GroupSynced"
def ReasonGroupSyncFailed : String := "GroupSyncFailed"
def ReasonGroupDeleted : String := "GroupDeleted"

/-- resolveParentGroup resolves the parent group name to its GroupID,
erroring when the parent is absent, still unsynced, or directly names this
group as its own parent. -/
def resolveParentGroup (store : List UptimeKumaGroup) (group : UptimeKumaGroup) :
    Except String Int :=
  match getGroup store group.spec.parentGroup group.ns with
  | none => .error ("parent group \x27" ++ group.spec.parentGroup ++ "\x27 not found")
  | some parentGroup =>
    if parentGroup.status.groupID = 0 then
      .error ("parent group \x27" ++ group.spec.parentGroup
        ++ "\x27 has not been synced yet (no GroupID)")
    else if parentGroup.spec.parentGroup = group.name then
      .error ("circular parent reference detected: " ++ group.name ++ " <-> "
        ++ parentGroup.name)
    else
      .ok parentGroup.status.groupID

/-- updateStatusSynced (group): observedGeneration and Ready=True with
reason GroupSynced; returns the result of the status write. -/
def groupUpdateStatusSynced (be : Backend) (group : UptimeKumaGroup) :
    UptimeKumaGroup × Except String Unit :=
  let cond : Condition :=
    { status := true
      reason := ReasonGroupSynced
      message := "Group synced successfully (GroupID: " ++ toString group.status.groupID ++ ")" }
  ({ group with status := { group.status with
      observedGeneration := group.generation
      ready := some cond } },
    be.statusUpdateResp)

/-- updateStatusError (group): Ready=False with reason GroupSyncFailed and
the error text as message. -/
def groupUpdateStatusError (group : UptimeKumaGroup) (errMsg : String) :
    UptimeKumaGroup :=
  { group with status := { group.status with
      ready := some { status := false, reason := ReasonGroupSyncFailed,
                      message := errMsg } } }

/-- Result of syncGroup. -/
structure GroupSyncOut where
  res : Except String Unit
  group : UptimeKumaGroup
  calls : List Call

/-- syncGroup builds the external group (resolving a parent reference when
set), creates it in the backend when the external id is the zero sentinel
(storing the returned id), updates it otherwise, then writes the synced
status. -/
def syncGroup (store : List UptimeKumaGroup) (be : Backend)
    (group : UptimeKumaGroup) : GroupSyncOut :=
  let groupName := if group.spec.groupName = "" then group.name else group.spec.groupName
  let base : KumaGroup :=
    { name := groupName, description := group.spec.description,
      weight := group.spec.weight, parent := none }
  let built : Except String KumaGroup :=
    if group.spec.parentGroup = "" then .ok base
    else
      match resolveParentGroup store group with
      | .error e => .error ("failed to resolve parent group: " ++ e)
      | .ok parentGroupID => .ok { base with parent := some parentGroupID }
  match built with
  | .error e => { res := .error e, group := group, calls := [] }
  | .ok kumaGroup =>
    if group.status.groupID = 0 then
      match be.createGroupResp with
      | .error e => { res := .error ("failed to create group: " ++ e), group := group,
                      calls := [.createGroup kumaGroup] }
      | .ok groupID =>
        let group := { group with status := { group.status with groupID := groupID } }
        let (group, res) := groupUpdateStatusSynced be group
        { res := res, group := group, calls := [.createGroup kumaGroup] }
    else
      match be.updateGroupResp with
      | .error e => { res := .error ("failed to update group: " ++ e), group := group,
                      calls := [.updateGroup group.status.groupID kumaGroup] }
      | .ok _ =>
        let (group, res) := groupUpdateStatusSynced be group
        { res := res, group := group, calls := [.updateGroup group.status.groupID kumaGroup] }

/-- Result of the group deletion handler. -/
structure GroupDeleteOut where
  group : UptimeKumaGroup
  result : ReconResult
  calls : List Call
  updated : Bool

/-- handleDeletion (group): a resource without the finalizer is left
untouched; otherwise the external group is deleted when an id is recorded
(the delete call result and even client construction failure are ignored),
and the finalizer is removed unconditionally. -/
def groupHandleDeletion (clientResp : Except String Unit) (be : Backend)
    (group : UptimeKumaGroup) : GroupDeleteOut :=
  if groupFinalizerName ∈ group.finalizers then
    let calls :=
      if group.status.groupID ≠ 0 then
        match clientResp with
        | .error _ => []
        | .ok _ =>
          match be.deleteGroupResp with
          | .error _ => [Call.deleteGroup group.status.groupID false]
          | .ok _ => [Call.deleteGroup group.status.groupID false]
      else []
    { group := { group with
        finalizers := group.finalizers.filter (· ≠ groupFinalizerName) }
      result := { requeueAfterMinutes := 0 }
      calls := calls
      updated := true }
  else
    { group := group, result := { requeueAfterMinutes := 0 }, calls := [],
      updated := false }

/-- Result of a full group reconcile. -/
structure GroupReconOut where
  group : UptimeKumaGroup
  result : ReconResult
  calls : List Call

/-- Reconcile (group): handle deletion, add the finalizer, build the client,
run the sync; errors set Ready=False and requeue after 1 minute, success
requeues after the drift interval. -/
def groupReconcile (store : List UptimeKumaGroup) (clientResp : Except String Unit)
    (be : Backend) (group : UptimeKumaGroup) : GroupReconOut :=
  if group.deletionTimestamp then
    let out := groupHandleDeletion clientResp be group
    { group := out.group, result := out.result, calls := out.calls }
  else
    let group :=
      if groupFinalizerName ∈ group.finalizers then group
      else { group with finalizers := group.finalizers ++ [groupFinalizerName] }
    match clientResp with
    | .error e =>
      { group := groupUpdateStatusError group e,
        result := { requeueAfterMinutes := 1 }, calls := [] }
    | .ok _ =>
      let out := syncGroup store be group
      match out.res with
      | .error e =>
        { group := groupUpdateStatusError out.group e,
          result := { requeueAfterMinutes := 1 }, calls := out.calls }
      | .ok _ =>
        { group := out.group,
          result := { requeueAfterMinutes := RequeueInterval }, calls := out.calls }

/-! ## Config controller (UptimeKumaConfigReconciler) -/

def ConditionTypeReady : String := "Ready"
def ReasonConnectionSuccess : String := "ConnectionSuccess"
def ReasonConnectionFailed : String := "ConnectionFailed"
def ReasonSecretNotFound : String := "SecretNotFound"
def ReasonInvalidSecret : String := "InvalidSecret"

/-- Reference to the API-key secret (name, optional namespace, optional
key). -/
structure SecretKeyRef where
  name : String
  ns : String
  key : String
deriving DecidableEq

/-- UptimeKumaConfigSpec: endpoint, credential reference, TLS policy,
timeout. -/
structure UptimeKumaConfigSpec where
  apiURL : String
  apiKeySecret : SecretKeyRef
  insecureSkipVerify : Bool
  timeout : Int
deriving DecidableEq

/-- UptimeKumaConfigStatus: connection state of the config. -/
structure UptimeKumaConfigStatus where
  connected : Bool
  version : String
  ready : Option Condition
deriving DecidableEq

/-- A UptimeKumaConfig resource. -/
structure UptimeKumaConfig where
  name : String
  ns : String
  generation : Int
  spec : UptimeKumaConfigSpec
  status : UptimeKumaConfigStatus
deriving DecidableEq

/-- A Kubernetes Secret (Data modelled as an association list of key to
value). -/
structure Secret where
  name : String
  ns : String
  data : List (String × String)
deriving DecidableEq

/-- r.Get on a secret key: lookup by name and namespace in the store. -/
def getSecret (secrets : List Secret) (name ns : String) : Option Secret :=
  secrets.find? (fun s => s.name == name && s.ns == ns)

/-- getAPIKey fetches the API key from the referenced Secret: the namespace
defaults to the config resource namespace, the key defaults to "api-key";
errors when the secret is absent, the key is missing, or the value is
empty. -/
def getAPIKey (secrets : List Secret) (config : UptimeKumaConfig) :
    Except String String :=
  let secretRef := config.spec.apiKeySecret
  let secretNamespace := if secretRef.ns = "" then config.ns else secretRef.ns
  let keyName := if secretRef.key = "" then "api-key" else secretRef.key
  match getSecret secrets secretRef.name secretNamespace with
  | none => .error ("secret " ++ secretNamespace ++ "/" ++ secretRef.name ++ " not found")
  | some secret =>
    match secret.data.lookup keyName with
    | none => .error ("secret " ++ secretNamespace ++ "/" ++ secretRef.name
        ++ " does not contain key \x27" ++ keyName ++ "\x27")
    | some apiKeyBytes =>
      if apiKeyBytes.length = 0 then
        .error ("API key in secret " ++ secretNamespace ++ "/" ++ secretRef.name
          ++ " is empty")
      else
        .ok apiKeyBytes

/-- updateStatusError (config): connected=false, Ready=False; the reason is
SecretNotFound only when the error text is empty or exactly the literal
"secret not found", otherwise InvalidSecret. -/
def configUpdateStatusError (config : UptimeKumaConfig) (errMsg : String) :
    UptimeKumaConfig :=
  let reason :=
    if errMsg ≠ "" ∧ errMsg ≠ "secret not found" then ReasonInvalidSecret
    else ReasonSecretNotFound
  { config with status := { config.status with
      connected := false
      ready := some { status := false, reason := reason, message := errMsg } } }

/-- updateStatusDisconnected (config): connected=false, Ready=False with
reason ConnectionFailed. -/
def configUpdateStatusDisconnected (config : UptimeKumaConfig) (errMsg : String) :
    UptimeKumaConfig :=
  { config with status := { config.status with
      connected := false
      ready := some { status := false, reason := ReasonConnectionFailed,
                      message := "Failed to connect to Uptime Kuma: " ++ errMsg } } }

/-- updateStatusConnected (config): connected=true, version recorded,
Ready=True with reason ConnectionSuccess. -/
def configUpdateStatusConnected (config : UptimeKumaConfig) (version : String) :
    UptimeKumaConfig :=
  { config with status := { config.status with
      connected := true
      version := version
      ready := some { status := true, reason := ReasonConnectionSuccess,
                      message := "Successfully connected to Uptime Kuma (version "
                        ++ version ++ ")" } } }

/-- Reconcile (config): fetch the API key (failure: error status, requeue
1 minute), test connectivity with GetHealth (`healthResp` injects the
response; failure: disconnected status, requeue 1 minute), else connected
status and requeue after the drift interval. -/
def configReconcile (secrets : List Secret) (healthResp : Except String String)
    (config : UptimeKumaConfig) : UptimeKumaConfig × ReconResult :=
  match getAPIKey secrets config with
  | .error e => (configUpdateStatusError config e, { requeueAfterMinutes := 1 })
  | .ok _ =>
    match healthResp with
    | .error e => (configUpdateStatusDisconnected config e, { requeueAfterMinutes := 1 })
    | .ok version => (configUpdateStatusConnected config version,
        { requeueAfterMinutes := RequeueInterval })

/-! ## Auxiliary executable predicates -/

/-- Whether `pat` is a leading segment of `s` (on character lists). -/
def charsStartWith : List Char → List Char → Bool
  | [], _ => true
  | _ :: _, [] => false
  | a :: pat, b :: s => a == b && charsStartWith pat s

/-- Whether `pat` occurs contiguously inside `s` (on character lists). -/
def charsContain (pat : List Char) : List Char → Bool
  | [] => charsStartWith pat []
  | b :: s => charsStartWith pat (b :: s) || charsContain pat s

/-- Whether the string `pat` occurs contiguously inside the string `s`
(strings.Contains). -/
def strContainsSub (s pat : String) : Bool :=
  charsContain pat.data s.data

/-- Classifier for monitor-creation backend calls. -/
def isCreateMonitorCall : Call → Bool
  | .createMonitor _ => true
  | _ => false

/-- Classifier for monitor-update backend calls. -/
def isUpdateMonitorCall : Call → Bool
  | .updateMonitor _ _ => true
  | _ => false

/-- Classifier for pause backend calls. -/
def isPauseCall : Call → Bool
  | .pauseMonitor _ => true
  | _ => false

/-- Classifier for resume backend calls. -/
def isResumeCall : Call → Bool
  | .resumeMonitor _ => true
  | _ => false

/-! ## Concrete sample inputs used by witnesses and counterexamples -/

/-- A backend where every call succeeds. -/
def okBackend : Backend :=
  { createMonitorResp := .ok 42
    updateMonitorResp := .ok ()
    deleteMonitorResp := .ok ()
    listTagsResp := .ok []
    createTagResp := .ok { id := 7, name := "source", color := "#4CAF50" }
    addTagResp := .ok ()
    getMonitorStatusResp := .ok { status := "up", uptime24h := none, uptime30d := none,
                                  avgPing24h := none }
    pauseResp := .ok ()
    resumeResp := .ok ()
    createGroupResp := .ok 11
    updateGroupResp := .ok ()
    deleteGroupResp := .ok ()
    statusUpdateResp := .ok () }

/-- An empty monitor status (zero value). -/
def emptyMonitorStatus : UptimeKumaMonitorStatus :=
  { monitorID := 0, status := "", uptimeStats := none, observedGeneration := 0,
    ready := none }

/-- A sample monitor resource, unsynced, no group reference. -/
def sampleMonitor : UptimeKumaMonitor :=
  { name := "m1", ns := "default", generation := 1,
    finalizers := [monitorFinalizerName], deletionTimestamp := false,
    spec := { emptyMonitorSpec with
              monitorType := "http"
              url := "http://example.com"
              active := true },
    status := emptyMonitorStatus }

/-- A sample group resource, unsynced, no parent reference. -/
def sampleGroup : UptimeKumaGroup :=
  { name := "g1", ns := "default", generation := 1,
    finalizers := [groupFinalizerName], deletionTimestamp := false,
    spec := { groupName := "", description := "", weight := 0, parentGroup := "",
              uptimeKumaConfigRef := "" },
    status := { groupID := 0, observedGeneration := 0, ready := none } }

/-- A group naming itself as its own parent. -/
def selfParentGroup : UptimeKumaGroup :=
  { sampleGroup with
    name := "g-self"
    spec := { sampleGroup.spec with parentGroup := "g-self" } }

/-- A monitor referencing group g1. -/
def groupedMonitor : UptimeKumaMonitor :=
  { sampleMonitor with spec := { sampleMonitor.spec with group := "g1" } }

/-- The discovery-source service of the port-fallback scenario: annotations
enabled=true and port=9090, declared ports http:8080 and metrics:9100. -/
def c4Service : Service :=
  { name := "web", ns := "default",
    annotations := [(AnnotationEnabled, "true"), (AnnotationPort, "9090")],
    ports := [{ name := "http", port := 8080 }, { name := "metrics", port := 9100 }] }

/-- A service with a non-integer interval annotation and one declared
port. -/
def c8Service : Service :=
  { name := "api", ns := "prod",
    annotations := [(AnnotationEnabled, "true"), (AnnotationInterval, "fast")],
    ports := [{ name := "http", port := 80 }] }

/-- The fetched status value "paused". -/
def pausedStatus : MonitorStatusResp :=
  { status := "paused", uptime24h := none, uptime30d := none, avgPing24h := none }

/-- A backend whose status fetch reports "paused". -/
def pausedBackend : Backend :=
  { okBackend with getMonitorStatusResp := .ok pausedStatus }

/-- A synced monitor (non-zero external id). -/
def syncedMonitor : UptimeKumaMonitor :=
  { sampleMonitor with status := { emptyMonitorStatus with monitorID := 5 } }

/-- An existing external tag named env. -/
def envTag : Tag := { id := 1, name := "env", color := "#111111" }

/-- A backend that already has the env tag. -/
def envTagBackend : Backend := { okBackend with listTagsResp := .ok [envTag] }

/-- A config resource referencing an absent secret (no explicit namespace
or key, so both default). -/
def c5Config : UptimeKumaConfig :=
  { name := "uptime-kuma", ns := "default", generation := 1,
    spec := { apiURL := "http://uptime-kuma:3001",
              apiKeySecret := { name := "kuma-key", ns := "", key := "" },
              insecureSkipVerify := false, timeout := 0 },
    status := { connected := false, version := "", ready := none } }

end UptimeKumaOperator

deriving instance DecidableEq for Except

namespace UptimeKumaOperator

/-! ## Helper lemmas and claim theorems -/

theorem charsContain_cons (pat : List Char) (c : Char) (l : List Char)
    (h : charsContain pat l = true) : charsContain pat (c :: l) = true := by
  show (charsStartWith pat (c :: l) || charsContain pat l) = true
  rw [h, Bool.or_true]

theorem charsContain_append (pat s l : List Char)
    (h : charsContain pat l = true) : charsContain pat (s ++ l) = true := by
  induction s with
  | nil => simpa using h
  | cons c cs ih => simpa [List.cons_append] using charsContain_cons pat c (cs ++ l) ih

theorem strContainsSub_append (s t pat : String)
    (h : strContainsSub t pat = true) : strContainsSub (s ++ t) pat = true := by
  unfold strContainsSub at h ⊢
  rw [String.data_append]
  exact charsContain_append pat.data s.data t.data h

/-- No call of syncTagOne is a monitor create or update. -/
theorem syncTagOne_countP_zero (p : Call → Bool) (be : Backend) (mid : Int)
    (tag : MonitorTag)
    (h1 : p .listTags = false) (h2 : ∀ n c, p (.createTag n c) = false)
    (h3 : ∀ a b v, p (.addTagToMonitor a b v) = false) :
    (syncTagOne be mid tag).countP p = 0 := by
  unfold syncTagOne FindOrCreateTag
  rcases hl : be.listTagsResp with e | tags
  · simp [List.countP_cons, h1]
  · rcases hf : tags.find? (fun t => t.name == tag.name) with _ | t
    · rcases hc : be.createTagResp with e | kt <;>
        simp [hf, hc, List.countP_cons, List.countP_append, h1, h2, h3]
    · simp [hf, List.countP_cons, List.countP_append, h1, h2, h3]

/-- No call of syncTags is a monitor create or update. -/
theorem syncTags_countP_zero (p : Call → Bool) (be : Backend)
    (monitor : UptimeKumaMonitor)
    (h1 : p .listTags = false) (h2 : ∀ n c, p (.createTag n c) = false)
    (h3 : ∀ a b v, p (.addTagToMonitor a b v) = false) :
    (syncTags be monitor).countP p = 0 := by
  unfold syncTags
  split
  · rfl
  · induction monitor.spec.tags with
    | nil => rfl
    | cons tag rest ih =>
      rw [List.flatMap_cons, List.countP_append, ih]
      simp [syncTagOne_countP_zero p be monitor.status.monitorID tag h1 h2 h3]

/-- updateMonitorStatus leaves the external monitor id unchanged. -/
theorem updateMonitorStatus_monitorID (be : Backend) (monitor : UptimeKumaMonitor) :
    (updateMonitorStatus be monitor).monitor.status.monitorID
      = monitor.status.monitorID := by
  unfold updateMonitorStatus
  rcases be.getMonitorStatusResp with e | resp <;> rfl

/-- updateMonitorStatus issues exactly the status-fetch call. -/
theorem updateMonitorStatus_calls (be : Backend) (monitor : UptimeKumaMonitor) :
    (updateMonitorStatus be monitor).calls
      = [Call.getMonitorStatus monitor.status.monitorID] := rfl

/-! ## Claims -/

/-- C1: For every Monitor resource, the external monitor identifier
(status.monitorId) is assigned exactly once: a reconcile issues a backend
create only when the identifier equals the zero sentinel, stores the
backend-returned id on that first successful create, and every subsequent
reconcile with a non-zero identifier issues an update (when the external
representation builds) and leaves the identifier unchanged. -/
theorem monitor_external_id_assigned_once (store : List UptimeKumaGroup)
    (be : Backend) (monitor : UptimeKumaMonitor) :
    (monitor.status.monitorID ≠ 0 →
      (syncMonitor store be monitor).calls.countP isCreateMonitorCall = 0 ∧
      (syncMonitor store be monitor).monitor.status.monitorID
        = monitor.status.monitorID) ∧
    (monitor.status.monitorID = 0 → (buildMonitorConfig store monitor).isOk = true →
      (syncMonitor store be monitor).calls.countP isCreateMonitorCall = 1 ∧
      ∀ id, be.createMonitorResp = .ok id →
        (syncMonitor store be monitor).monitor.status.monitorID = id) ∧
    (monitor.status.monitorID ≠ 0 → (buildMonitorConfig store monitor).isOk = true →
      (syncMonitor store be monitor).calls.countP isUpdateMonitorCall = 1) := by
  have hcreate : ∀ q : Call → Bool, q = isCreateMonitorCall ∨ q = isUpdateMonitorCall →
      ∀ m : UptimeKumaMonitor, (syncTags be m).countP q = 0 := by
    intro q hq m
    rcases hq with h | h <;> subst h <;>
      exact syncTags_countP_zero _ be m rfl (fun _ _ => rfl) (fun _ _ _ => rfl)
  unfold syncMonitor
  rcases hb : buildMonitorConfig store monitor with e | km
  · exact ⟨fun _ => ⟨rfl, rfl⟩, fun _ hok => absurd hok (by exact Bool.noConfusion),
      fun _ hok => absurd hok (by exact Bool.noConfusion)⟩
  · dsimp only
    by_cases hid : monitor.status.monitorID = 0
    · rw [if_pos hid]
      rcases hc : be.createMonitorResp with e | newID
      · refine ⟨fun h => absurd hid h, fun _ _ => ⟨rfl, ?_⟩, fun h => absurd hid h⟩
        intro id hcontra
        exact absurd hcontra (by simp)
      · refine ⟨fun h => absurd hid h, fun _ _ => ⟨?_, ?_⟩, fun h => absurd hid h⟩
        · simp only [List.countP_append, updateMonitorStatus_calls]
          rw [hcreate isCreateMonitorCall (Or.inl rfl)]
          rfl
        · intro id hid2
          cases hid2
          simp [updateMonitorStatus_monitorID]
    · rw [if_neg hid]
      rcases hu : be.updateMonitorResp with e | u
      · exact ⟨fun _ => ⟨rfl, rfl⟩, fun h => absurd h hid, fun _ _ => rfl⟩
      · refine ⟨fun _ => ⟨?_, ?_⟩, fun h => absurd h hid, fun _ _ => ?_⟩
        · simp only [List.countP_append, updateMonitorStatus_calls]
          rw [hcreate isCreateMonitorCall (Or.inl rfl)]
          rfl
        · simp [updateMonitorStatus_monitorID]
        · simp only [List.countP_append, updateMonitorStatus_calls]
          rw [hcreate isUpdateMonitorCall (Or.inr rfl)]
          rfl

/-- Witness for C1 at a concrete input: an unsynced monitor whose create
returns id 42 issues one create and stores 42; the now-synced monitor then
issues one update and keeps 42. -/
theorem monitor_external_id_assigned_once_witness :
    (syncMonitor [] okBackend sampleMonitor).calls.countP isCreateMonitorCall = 1 ∧
    (syncMonitor [] okBackend sampleMonitor).monitor.status.monitorID = 42 := by
  have h := (monitor_external_id_assigned_once [] okBackend sampleMonitor).2.1
    rfl (by rfl)
  exact ⟨h.1, h.2 42 rfl⟩

/-- C2: For every Group resource whose spec.parentGroup equals the
own name of the resource (names of stored resources being nonempty), no normal
reconcile ever sets the Ready condition to True: parent resolution always
fails (unsynced self or direct-cycle check), so every normal reconcile
writes Ready=False. -/
theorem group_self_parent_never_ready (store : List UptimeKumaGroup)
    (clientResp : Except String Unit) (be : Backend) (group : UptimeKumaGroup)
    (hname : group.name ≠ "")
    (hself : group.spec.parentGroup = group.name)
    (hts : group.deletionTimestamp = false)
    (hstore : getGroup store group.name group.ns = some group) :
    (∃ e, resolveParentGroup store group = .error e) ∧
    (∃ c, (groupReconcile store clientResp be group).group.status.ready = some c ∧
      c.status = false) ∧
    (∀ g3 : UptimeKumaGroup, g3.deletionTimestamp = true →
      (groupReconcile store clientResp be g3).group.status = g3.status) := by
  have hres : ∀ g2 : UptimeKumaGroup, g2.spec = group.spec → g2.ns = group.ns →
      g2.name = group.name → ∃ e, resolveParentGroup store g2 = .error e := by
    intro g2 hspec hns hname2
    unfold resolveParentGroup
    rw [hspec, hns, hself, hstore]
    dsimp only
    by_cases hgid : group.status.groupID = 0
    · rw [if_pos hgid]
      exact ⟨_, rfl⟩
    · rw [if_neg hgid, hname2, if_pos hself]
      exact ⟨_, rfl⟩
  refine ⟨hres group rfl rfl rfl, ?_, ?_⟩
  case refine_2 =>
    intro g3 hts3
    unfold groupReconcile groupHandleDeletion
    rw [hts3, if_pos rfl]
    by_cases hf3 : groupFinalizerName ∈ g3.finalizers
    · rw [if_pos hf3]
    · rw [if_neg hf3]
  unfold groupReconcile
  rw [hts]
  simp only [Bool.false_eq_true, if_false]
  by_cases hf : groupFinalizerName ∈ group.finalizers
  · rw [if_pos hf]
    rcases clientResp with e | u
    · exact ⟨_, rfl, rfl⟩
    · obtain ⟨e, he⟩ := hres group rfl rfl rfl
      have hne : group.spec.parentGroup ≠ "" := by rw [hself]; exact hname
      unfold syncGroup
      dsimp only
      rw [if_neg hne, he]
      exact ⟨_, rfl, rfl⟩
  · rw [if_neg hf]
    rcases clientResp with e | u
    · exact ⟨_, rfl, rfl⟩
    · obtain ⟨e, he⟩ := hres { group with
        finalizers := group.finalizers ++ [groupFinalizerName]
        deletionTimestamp := false } rfl rfl rfl
      have hne : ({ group with
          finalizers := group.finalizers ++ [groupFinalizerName]
          deletionTimestamp := false } : UptimeKumaGroup).spec.parentGroup ≠ "" := by
        show group.spec.parentGroup ≠ ""
        rw [hself]; exact hname
      unfold syncGroup
      dsimp only
      rw [if_neg hne, he]
      exact ⟨_, rfl, rfl⟩

/-- Witness for C2 at a concrete input: the self-parent group reconciles to
a Ready=False condition, and its parent resolution errors. -/
theorem group_self_parent_never_ready_witness :
    (∃ e, resolveParentGroup [selfParentGroup] selfParentGroup = .error e) ∧
    ∃ c, (groupReconcile [selfParentGroup] (.ok ()) okBackend
        selfParentGroup).group.status.ready = some c ∧ c.status = false := by
  have h := group_self_parent_never_ready [selfParentGroup] (.ok ()) okBackend
    selfParentGroup (by simp [selfParentGroup, sampleGroup]) rfl rfl rfl
  exact ⟨h.1, h.2.1⟩

/-- C3: When a Monitor or Group resource carrying its finalizer is
reconciled with a deletion timestamp and a non-zero external identifier,
the deletion handler issues exactly one external delete call and then
removes the finalizer unconditionally (even if client construction or the
delete call errors); when the external identifier is zero no external call
is made at all. -/
theorem deletion_one_call_finalizer_always_removed (be : Backend)
    (clientResp : Except String Unit)
    (monitor : UptimeKumaMonitor) (group : UptimeKumaGroup)
    (hm : monitorFinalizerName ∈ monitor.finalizers)
    (hg : groupFinalizerName ∈ group.finalizers) :
    ((monitor.status.monitorID ≠ 0 → clientResp = .ok () →
      (monitorHandleDeletion clientResp be monitor).calls
        = [Call.deleteMonitor monitor.status.monitorID false]) ∧
     (monitorFinalizerName ∉ (monitorHandleDeletion clientResp be monitor).monitor.finalizers) ∧
     (monitor.status.monitorID = 0 → (monitorHandleDeletion clientResp be monitor).calls = [])) ∧
    ((group.status.groupID ≠ 0 → clientResp = .ok () →
      (groupHandleDeletion clientResp be group).calls
        = [Call.deleteGroup group.status.groupID false]) ∧
     (groupFinalizerName ∉ (groupHandleDeletion clientResp be group).group.finalizers) ∧
     (group.status.groupID = 0 → (groupHandleDeletion clientResp be group).calls = [])) := by
  unfold monitorHandleDeletion groupHandleDeletion
  rw [if_pos hm, if_pos hg]
  dsimp only
  refine ⟨⟨?_, ?_, ?_⟩, ?_, ?_, ?_⟩
  · intro hid hok
    subst hok
    rw [if_pos hid]
    rcases be.deleteMonitorResp <;> rfl
  · simp [List.mem_filter]
  · intro hid
    rw [if_neg (not_not_intro hid)]
  · intro hid hok
    subst hok
    rw [if_pos hid]
    rcases be.deleteGroupResp <;> rfl
  · simp [List.mem_filter]
  · intro hid
    rw [if_neg (not_not_intro hid)]

/-- Witness for C3 at a concrete input: a deleting monitor with id 9 and a
deleting group with id 3 each issue exactly one delete and lose the
finalizer. -/
theorem deletion_one_call_finalizer_always_removed_witness :
    ((9 : Int) ≠ 0) ∧
    (monitorHandleDeletion (.ok ()) okBackend
      { sampleMonitor with status := { emptyMonitorStatus with monitorID := 9 } }).calls
        = [Call.deleteMonitor 9 false] ∧
    (groupHandleDeletion (.ok ()) okBackend
      { sampleGroup with status := { sampleGroup.status with groupID := 3 } }).calls
        = [Call.deleteGroup 3 false] := by
  have h := deletion_one_call_finalizer_always_removed okBackend (.ok ())
    { sampleMonitor with status := { emptyMonitorStatus with monitorID := 9 } }
    { sampleGroup with status := { sampleGroup.status with groupID := 3 } }
    (by simp [sampleMonitor]) (by simp [sampleGroup])
  exact ⟨by decide, h.1.1 (by decide) rfl, h.2.1 (by decide) rfl⟩

/-- C10: if a Monitor or Group resource with a deletion timestamp no longer
carries its finalizer, the deletion handler is a no-op: success, no backend
call, no write to the resource. -/
theorem deletion_noop_without_finalizer (be : Backend)
    (clientResp : Except String Unit)
    (monitor : UptimeKumaMonitor) (group : UptimeKumaGroup)
    (hm : monitorFinalizerName ∉ monitor.finalizers)
    (hg : groupFinalizerName ∉ group.finalizers) :
    monitorHandleDeletion clientResp be monitor =
      { monitor := monitor, result := { requeueAfterMinutes := 0 }, calls := [],
        updated := false } ∧
    groupHandleDeletion clientResp be group =
      { group := group, result := { requeueAfterMinutes := 0 }, calls := [],
        updated := false } := by
  unfold monitorHandleDeletion groupHandleDeletion
  rw [if_neg hm, if_neg hg]
  exact ⟨rfl, rfl⟩

/-- Witness for C10 at a concrete input: finalizer-free deleting resources
are returned untouched with no calls and no update. -/
theorem deletion_noop_without_finalizer_witness :
    monitorHandleDeletion (.error "down") okBackend
        { sampleMonitor with finalizers := [], deletionTimestamp := true } =
      { monitor := { sampleMonitor with finalizers := [], deletionTimestamp := true },
        result := { requeueAfterMinutes := 0 }, calls := [], updated := false } ∧
    groupHandleDeletion (.error "down") okBackend
        { sampleGroup with finalizers := [], deletionTimestamp := true } =
      { group := { sampleGroup with finalizers := [], deletionTimestamp := true },
        result := { requeueAfterMinutes := 0 }, calls := [], updated := false } :=
  deletion_noop_without_finalizer okBackend (.error "down")
    { sampleMonitor with finalizers := [], deletionTimestamp := true }
    { sampleGroup with finalizers := [], deletionTimestamp := true }
    (by simp) (by simp)

/-- C6: For a monitor with a non-zero external identifier whose status
fetch succeeds, active-state synchronization issues exactly one resume call
when active is desired but the fetched status is paused, exactly one pause
call when inactivity is desired but the fetched status is not paused, no
pause or resume call when the desired flag matches the observed paused
classification, and never more than one pause-or-resume call. -/
theorem active_state_single_toggle (be : Backend) (monitor : UptimeKumaMonitor)
    (st : MonitorStatusResp)
    (hid : monitor.status.monitorID ≠ 0)
    (hfetch : be.getMonitorStatusResp = .ok st) :
    (monitor.spec.active = true → st.status = "paused" →
      (syncActiveState be monitor).2 =
        [Call.getMonitorStatus monitor.status.monitorID,
         Call.resumeMonitor monitor.status.monitorID]) ∧
    (monitor.spec.active = false → st.status ≠ "paused" →
      (syncActiveState be monitor).2 =
        [Call.getMonitorStatus monitor.status.monitorID,
         Call.pauseMonitor monitor.status.monitorID]) ∧
    ((monitor.spec.active = true ↔ st.status ≠ "paused") →
      (syncActiveState be monitor).2 =
        [Call.getMonitorStatus monitor.status.monitorID]) ∧
    ((syncActiveState be monitor).2.countP isPauseCall +
      (syncActiveState be monitor).2.countP isResumeCall ≤ 1) := by
  unfold syncActiveState
  rw [if_neg hid, hfetch]
  dsimp only
  refine ⟨?_, ?_, ?_, ?_⟩
  · intro ha hp
    rw [if_pos ⟨ha, fun h => h hp⟩]
  · intro ha hp
    rw [if_neg (fun h => by rw [ha] at h; exact Bool.noConfusion h.1),
      if_pos ⟨fun h => by rw [ha] at h; exact Bool.noConfusion h, hp⟩]
  · intro hiff
    rw [if_neg (fun h => h.2 (hiff.mp h.1)), if_neg (fun h => h.1 (hiff.mpr h.2))]
  · by_cases h1 : (monitor.spec.active = true) ∧ ¬(st.status ≠ "paused")
    · rw [if_pos h1]
      simp [List.countP_cons, isPauseCall, isResumeCall]
    · rw [if_neg h1]
      by_cases h2 : ¬(monitor.spec.active = true) ∧ (st.status ≠ "paused")
      · rw [if_pos h2]
        simp [List.countP_cons, isPauseCall, isResumeCall]
      · rw [if_neg h2]
        simp [List.countP_cons, isPauseCall, isResumeCall]

/-- Witness for C6 at a concrete input: an active monitor observed paused
issues exactly the status fetch and one resume. -/
theorem active_state_single_toggle_witness :
    (syncActiveState pausedBackend syncedMonitor).2
      = [Call.getMonitorStatus 5, Call.resumeMonitor 5] := by
  have h := active_state_single_toggle pausedBackend syncedMonitor pausedStatus
    (by decide) rfl
  exact h.1 rfl rfl

/-- C9: FindOrCreateTag returns the first existing backend tag whose name
exactly equals the requested name, ignoring the requested color; the color
is used only when no tag of that name exists and a create is issued, so an
existing external tag of the same name is never updated. -/
theorem find_or_create_tag_first_match (be : Backend) (tags : List Tag)
    (name color : String) (hlist : be.listTagsResp = .ok tags) :
    (∀ t, tags.find? (fun x => x.name == name) = some t →
      FindOrCreateTag be name color = (.ok t, [.listTags])) ∧
    (tags.find? (fun x => x.name == name) = none →
      FindOrCreateTag be name color
        = (be.createTagResp, [.listTags, .createTag name color])) := by
  unfold FindOrCreateTag
  rw [hlist]
  dsimp only
  constructor
  · intro t ht
    rw [ht]
  · intro hn
    rw [hn]

/-- Witness for C9 at a concrete input: a matching tag with a different
color is returned as-is with no create call. -/
theorem find_or_create_tag_first_match_witness :
    FindOrCreateTag envTagBackend "env" "#222222" = (.ok envTag, [.listTags]) := by
  have h := find_or_create_tag_first_match envTagBackend [envTag] "env" "#222222" rfl
  exact h.1 envTag rfl

/-- C7: A Monitor whose spec.group names a Group resource with
status.groupId equal to 0 fails its primary sync: the reconcile sets
Ready=False with reason MonitorSyncFailed and a condition message
containing "has not been synced yet", and requeues after 1 minute. -/
theorem monitor_unsynced_group_not_ready (store : List UptimeKumaGroup)
    (be : Backend) (monitor : UptimeKumaMonitor) (g : UptimeKumaGroup)
    (hgrp : monitor.spec.group ≠ "")
    (hlookup : getGroup store monitor.spec.group monitor.ns = some g)
    (hgid : g.status.groupID = 0)
    (hts : monitor.deletionTimestamp = false) :
    (monitorReconcile store (.ok ()) be monitor).result.requeueAfterMinutes = 1 ∧
    ∃ c, (monitorReconcile store (.ok ()) be monitor).monitor.status.ready = some c ∧
      c.status = false ∧ c.reason = ReasonMonitorSyncFailed ∧
      strContainsSub c.message "has not been synced yet" = true := by
  have hcontain : strContainsSub ("failed to build monitor config: "
      ++ ("failed to resolve group: " ++ ("group \x27" ++ monitor.spec.group
        ++ "\x27 has not been synced yet (no GroupID)"))) "has not been synced yet"
      = true := by
    apply strContainsSub_append
    apply strContainsSub_append
    apply strContainsSub_append
    decide
  have hbuild : ∀ m2 : UptimeKumaMonitor, m2.spec = monitor.spec → m2.ns = monitor.ns →
      buildMonitorConfig store m2 = .error ("failed to resolve group: "
        ++ ("group \x27" ++ monitor.spec.group
          ++ "\x27 has not been synced yet (no GroupID)")) := by
    intro m2 hspec hns
    unfold buildMonitorConfig resolveGroup
    rw [hspec, hns, hlookup]
    dsimp only
    rw [if_neg hgrp, if_pos hgid]
  unfold monitorReconcile
  rw [hts]
  simp only [Bool.false_eq_true, if_false]
  by_cases hf : monitorFinalizerName ∈ monitor.finalizers
  · rw [if_pos hf]
    unfold syncMonitor
    rw [hbuild monitor rfl rfl]
    exact ⟨rfl, _, rfl, rfl, rfl, hcontain⟩
  · rw [if_neg hf]
    unfold syncMonitor
    rw [hbuild { monitor with
      finalizers := monitor.finalizers ++ [monitorFinalizerName]
      deletionTimestamp := false } rfl rfl]
    exact ⟨rfl, _, rfl, rfl, rfl, hcontain⟩

/-- Witness for C7 at a concrete input: a monitor referencing unsynced
group g1 reconciles to Ready=False with reason MonitorSyncFailed, the
expected message fragment, and a 1-minute requeue. -/
theorem monitor_unsynced_group_not_ready_witness :
    (monitorReconcile [sampleGroup] (.ok ()) okBackend
      groupedMonitor).result.requeueAfterMinutes = 1 ∧
    ∃ c, (monitorReconcile [sampleGroup] (.ok ()) okBackend
        groupedMonitor).monitor.status.ready = some c ∧
      c.status = false ∧ c.reason = ReasonMonitorSyncFailed ∧
      strContainsSub c.message "has not been synced yet" = true :=
  monitor_unsynced_group_not_ready [sampleGroup] okBackend groupedMonitor
    sampleGroup (by decide) rfl rfl rfl

/-- C4 counterexample: on a source with declared ports http:8080 and
metrics:9100 and a port annotation of 9090, the claim predicts a fallback
to 8080, but port resolution returns 9090 and the derived URL targets
9090. -/
theorem discovery_numeric_port_counterexample :
    resolvePort c4Service "9090" = .ok 9090 ∧
    resolvePort c4Service "9090" ≠ .ok 8080 ∧
    (buildMonitorSpec c4Service).map (fun s => s.url)
      ≠ .ok "http://web.default.svc.cluster.local:8080/" := by
  decide

/-- C4 amended: a numeric port annotation is used directly even when no
declared port matches it (here 9090, so the derived URL targets 9090); the
first-declared-port fallback applies only to a non-numeric annotation
matching no declared port name, and resolution does not error in either
case. -/
theorem discovery_numeric_port_amended :
    resolvePort c4Service "9090" = .ok 9090 ∧
    (buildMonitorSpec c4Service).map (fun s => s.url)
      = .ok "http://web.default.svc.cluster.local:9090/" ∧
    resolvePort c4Service "grpc" = .ok 8080 ∧
    resolvePort c4Service "metrics" = .ok 9100 :=
  ⟨rfl, rfl, rfl, rfl⟩

/-- C5: the claim (and the intent documented on the reason constants) is
that an absent credential secret yields reason SecretNotFound; the code
instead yields InvalidSecret, because getAPIKey reports
"secret NAMESPACE/NAME not found" while updateStatusError reserves
SecretNotFound for an error text that is empty or exactly the literal
"secret not found". Evaluation of the embedded code at the failing
input. -/
theorem config_missing_secret_reason_divergence :
    getAPIKey [] c5Config = .error "secret default/kuma-key not found" ∧
    (configReconcile [] (.ok "2.0.0") c5Config).1.status.ready =
      some { status := false, reason := ReasonInvalidSecret,
             message := "secret default/kuma-key not found" } ∧
    (configReconcile [] (.ok "2.0.0") c5Config).2.requeueAfterMinutes = 1 ∧
    ReasonInvalidSecret ≠ ReasonSecretNotFound := by
  exact ⟨rfl, rfl, rfl, by decide⟩

/-- C8: a DiscoverySource whose interval annotation does not parse as an
integer (an absent annotation resolves to the empty string and is likewise
unparsable) derives a monitor spec with the default interval 60, and spec
derivation does not error provided port resolution succeeds. -/
theorem discovery_interval_default_on_bad_annotation (service : Service) (p : Int)
    (hport : resolvePort service (getAnnotationValue service.annotations
      AnnotationPort DefaultPortName) = .ok p)
    (hint : atoi (getAnnotationValue service.annotations AnnotationInterval "")
      = none) :
    ∃ s, buildMonitorSpec service = .ok s ∧ s.interval = 60 := by
  unfold buildMonitorSpec
  dsimp only
  rw [hport]
  dsimp only
  refine ⟨_, rfl, ?_⟩
  dsimp only
  by_cases he : getAnnotationValue service.annotations AnnotationInterval "" = ""
  · rw [if_pos he]
    rfl
  · rw [if_neg he, hint]
    rfl

/-- Witness for C8 at a concrete input: interval annotation "fast" on a
service with one declared port derives interval 60. -/
theorem discovery_interval_default_on_bad_annotation_witness :
    ∃ s, buildMonitorSpec c8Service = .ok s ∧ s.interval = 60 :=
  discovery_interval_default_on_bad_annotation c8Service 80 rfl rfl

end UptimeKumaOperator
